import Mathlib

/-!
Verification of the monthly financial simulation engine
(calculate_investment in calculator.py) of the house-investment-calculator
repository, against its natural-language specification.

The engine is embedded shallowly: Python floats are idealized as real
numbers, the monthly loop becomes an explicit state-passing iteration
(simStep / simulateAux), and desugared helper values keep the names of the
corresponding Python locals (total_months, grace_months, remaining_months,
post_grace_payment, monthly_stock_return, ...).  Python int() truncation
toward zero is modelled by pyInt.
-/

/-- The keys of the result dictionary returned by calculate_investment
(the dict literal at calculator.py lines 98-118, in source order). -/
def resultKeys : List String :=
  ["house_price_initial", "loan_amount", "down_payment", "mortgage_years",
   "grace_period_years", "mortgage_rate", "house_growth_rate", "rent_initial",
   "rent_growth_rate", "stock_return_rate", "buy_net_worth", "buy_total_spent",
   "total_mortgage_paid", "rent_net_worth", "total_rent_paid",
   "final_stock_portfolio", "cash_savings", "grace_monthly_pay",
   "post_grace_monthly_pay"]

noncomputable section

/-- The parameter set of calculate_investment, one field per Python
keyword argument (calculator.py lines 14-25). -/
@[ext]
structure Params where
  loan_amount : ℝ
  down_payment : ℝ
  mortgage_rate : ℝ
  rent_initial : ℝ
  rent_growth_rate : ℝ
  house_growth_rate : ℝ
  stock_return_rate : ℝ
  grace_period_years : ℝ
  invest_difference : Bool
  mortgage_years : ℝ

/-- Python int() applied to a float: truncation toward zero. -/
def pyInt (x : ℝ) : ℤ := if 0 ≤ x then ⌊x⌋ else ⌈x⌉

/-- house_price_initial = loan_amount + down_payment (line 30). -/
def house_price_initial (p : Params) : ℝ := p.loan_amount + p.down_payment

/-- monthly_mortgage_rate = mortgage_rate / 12 (line 31). -/
def monthly_mortgage_rate (p : Params) : ℝ := p.mortgage_rate / 12

/-- total_months = int(mortgage_years * 12) (line 32). -/
def total_months (p : Params) : ℤ := pyInt (p.mortgage_years * 12)

/-- grace_months = int(grace_period_years * 12) (line 33). -/
def grace_months (p : Params) : ℤ := pyInt (p.grace_period_years * 12)

/-- remaining_months = total_months - grace_months (line 38). -/
def remaining_months (p : Params) : ℤ := total_months p - grace_months p

/-- The post-grace fixed monthly payment (lines 39-49): annuity formula when
the monthly rate is positive, straight-line when it is zero or negative,
and 0 when no months remain after the grace period. -/
def post_grace_payment (p : Params) : ℝ :=
  if 0 < remaining_months p then
    if 0 < monthly_mortgage_rate p then
      p.loan_amount *
          (monthly_mortgage_rate p *
            (1 + monthly_mortgage_rate p) ^ (remaining_months p).toNat) /
        ((1 + monthly_mortgage_rate p) ^ (remaining_months p).toNat - 1)
    else
      p.loan_amount / (remaining_months p : ℝ)
  else 0

/-- monthly_stock_return = (1 + stock_return_rate) ** (1/12) - 1 (line 54),
the geometric monthly rate, via the real power function. -/
def monthly_stock_return (p : Params) : ℝ :=
  (1 + p.stock_return_rate) ^ ((1 : ℝ) / 12) - 1

/-- The mortgage payment charged in a given month (lines 66-69):
interest-only inside the grace period, the amortized constant after it. -/
def mortgagePay (p : Params) (month : ℕ) : ℝ :=
  if (month : ℤ) ≤ grace_months p then p.loan_amount * monthly_mortgage_rate p
  else post_grace_payment p

/-- The rent in force for a given month, from the previous month's rent
(lines 73-74): multiplied by (1 + rent_growth_rate) when month > 1 and
(month - 1) % 12 == 0, unchanged otherwise. -/
def nextRent (p : Params) (month : ℕ) (rent : ℝ) : ℝ :=
  if 1 < month ∧ (month - 1) % 12 = 0 then rent * (1 + p.rent_growth_rate)
  else rent

/-- The mutable locals of the monthly loop (lines 57-61). -/
structure SimState where
  stock_portfolio : ℝ
  total_mortgage_paid : ℝ
  total_rent_paid : ℝ
  current_rent : ℝ
  cash_savings : ℝ

/-- Initialization before the loop (lines 57-61). -/
def initState (p : Params) : SimState :=
  { stock_portfolio := p.down_payment
    total_mortgage_paid := 0
    total_rent_paid := 0
    current_rent := p.rent_initial
    cash_savings := 0 }

/-- One iteration of the monthly loop (lines 64-87): charge the mortgage,
adjust and charge the rent, grow the portfolio, then route the cash-flow
difference into the portfolio or into cash_savings. -/
def simStep (p : Params) (month : ℕ) (s : SimState) : SimState :=
  let pay := mortgagePay p month
  let rent := nextRent p month s.current_rent
  let grown := s.stock_portfolio * (1 + monthly_stock_return p)
  let diff := pay - rent
  { stock_portfolio := if p.invest_difference then grown + diff else grown
    total_mortgage_paid := s.total_mortgage_paid + pay
    total_rent_paid := s.total_rent_paid + rent
    current_rent := rent
    cash_savings :=
      if p.invest_difference then s.cash_savings else s.cash_savings + diff }

/-- State after the first m months of the loop. -/
def simulateAux (p : Params) : ℕ → SimState
  | 0 => initState p
  | m + 1 => simStep p (m + 1) (simulateAux p m)

/-- Number of iterations of `for month in range(1, total_months + 1)`:
empty when total_months is not positive. -/
def monthsCount (p : Params) : ℕ := (total_months p).toNat

/-- Loop state after the whole simulation. -/
def finalState (p : Params) : SimState := simulateAux p (monthsCount p)

/-- final_house_value (line 90): initial price grown once over the whole
horizon by the annual house growth rate. -/
def final_house_value (p : Params) : ℝ :=
  house_price_initial p * (1 + p.house_growth_rate) ^ p.mortgage_years

/-- The result record (lines 98-118); field names are the dict keys. -/
structure SimResult where
  house_price_initial : ℝ
  loan_amount : ℝ
  down_payment : ℝ
  mortgage_years : ℝ
  grace_period_years : ℝ
  mortgage_rate : ℝ
  house_growth_rate : ℝ
  rent_initial : ℝ
  rent_growth_rate : ℝ
  stock_return_rate : ℝ
  buy_net_worth : ℝ
  buy_total_spent : ℝ
  total_mortgage_paid : ℝ
  rent_net_worth : ℝ
  total_rent_paid : ℝ
  final_stock_portfolio : ℝ
  cash_savings : ℝ
  grace_monthly_pay : ℝ
  post_grace_monthly_pay : ℝ

/-- The engine, calculate_investment (calculator.py lines 14-118). -/
def calculate_investment (p : Params) : SimResult :=
  { house_price_initial := house_price_initial p
    loan_amount := p.loan_amount
    down_payment := p.down_payment
    mortgage_years := p.mortgage_years
    grace_period_years := p.grace_period_years
    mortgage_rate := p.mortgage_rate
    house_growth_rate := p.house_growth_rate
    rent_initial := p.rent_initial
    rent_growth_rate := p.rent_growth_rate
    stock_return_rate := p.stock_return_rate
    buy_net_worth := final_house_value p
    buy_total_spent := p.down_payment + (finalState p).total_mortgage_paid
    total_mortgage_paid := (finalState p).total_mortgage_paid
    rent_net_worth := (finalState p).stock_portfolio + (finalState p).cash_savings
    total_rent_paid := (finalState p).total_rent_paid
    final_stock_portfolio := (finalState p).stock_portfolio
    cash_savings := (finalState p).cash_savings
    grace_monthly_pay :=
      if 0 < grace_months p then p.loan_amount * monthly_mortgage_rate p else 0
    post_grace_monthly_pay := post_grace_payment p }

/-- Rent charged in month m (for m = 1, 2, ...): the current_rent field
right after month m's update, which is the amount added to total_rent_paid
in that month. -/
def rentCharged (p : Params) (m : ℕ) : ℝ := (simulateAux p m).current_rent

/-! ## Helper lemmas about the monthly loop -/

/-- With invest_difference = false the portfolio is only ever multiplied by
the monthly growth factor, so after m months it is the down payment
compounded m times. -/
theorem portfolio_closed_form (p : Params) (hp : p.invest_difference = false) :
    ∀ m : ℕ, (simulateAux p m).stock_portfolio
      = p.down_payment * (1 + monthly_stock_return p) ^ m := by
  intro m
  induction m with
  | zero => simp [simulateAux, initState]
  | succ k ih =>
      simp only [simulateAux, simStep, hp, Bool.false_eq_true, if_false, ih,
        pow_succ]
      ring

/-- With invest_difference = true the cash_savings accumulator is never
touched, so it stays at its initial value 0. -/
theorem cash_savings_eq_zero (p : Params) (hp : p.invest_difference = true) :
    ∀ m : ℕ, (simulateAux p m).cash_savings = 0 := by
  intro m
  induction m with
  | zero => simp [simulateAux, initState]
  | succ k ih => simp [simulateAux, simStep, hp, ih]

/-- Closed form of the rent in force after m months: the initial rent
stepped up once per completed 12-month block. -/
theorem current_rent_closed_form (p : Params) :
    ∀ m : ℕ, (simulateAux p m).current_rent
      = p.rent_initial * (1 + p.rent_growth_rate) ^ ((m - 1) / 12) := by
  intro m
  induction m with
  | zero => simp [simulateAux, initState]
  | succ k ih =>
      by_cases h : 1 < k + 1 ∧ (k + 1 - 1) % 12 = 0
      · obtain ⟨h1, h2⟩ := h
        have hk : (k + 1 - 1) / 12 = (k - 1) / 12 + 1 := by omega
        simp only [simulateAux, simStep, nextRent, h1, h2, and_self, if_true,
          ih, hk, pow_succ]
        ring
      · have hk : (k + 1 - 1) / 12 = (k - 1) / 12 := by omega
        simp only [simulateAux, simStep, nextRent, h, if_false, ih, hk]

/-- total_rent_paid after m months is the sum of the rents charged in
months 1..m. -/
theorem total_rent_paid_sum (p : Params) :
    ∀ m : ℕ, (simulateAux p m).total_rent_paid
      = ∑ k ∈ Finset.range m, rentCharged p (k + 1) := by
  intro m
  induction m with
  | zero => simp [simulateAux, initState]
  | succ k ih =>
      rw [Finset.sum_range_succ, ← ih]
      simp [rentCharged, simulateAux, simStep]

/-! ## Example parameter sets used by the witnesses -/

/-- The §8 scenario parameter set: loan 12,000,000, down payment 3,000,000,
rate 2.5%, 30 years, no grace period, house growth 5%, rent 27,000 growing
2%, stock return 10%, difference invested. -/
def exP : Params :=
  { loan_amount := 12000000
    down_payment := 3000000
    mortgage_rate := 0.025
    rent_initial := 27000
    rent_growth_rate := 0.02
    house_growth_rate := 0.05
    stock_return_rate := 0.10
    grace_period_years := 0
    invest_difference := true
    mortgage_years := 30 }

/-- An invalid parameter set in the sense of the §3 table: mortgage_years = 0
violates the constraint mortgage_years > 0 (all other fields as in exP). -/
def invalidP : Params := { exP with mortgage_years := 0 }

/-- exP with a 3-year grace period. -/
def exPg : Params := { exP with grace_period_years := 3 }

/-- exP with the grace period consuming the whole 30-year term. -/
def exPd : Params := { exP with grace_period_years := 30 }

/-- exP with invest_difference switched off. -/
def exPf : Params := { exP with invest_difference := false }

/-! ## Claims -/

/-- Claim C1: the spec says calculate_investment raises/returns an
InvalidParameter error for any parameter set violating a §3 constraint,
before any month is simulated and without producing a result record.  The
code performs no validation at all: on the invalid input invalidP
(mortgage_years = 0, violating mortgage_years > 0) it silently returns a
complete result record, whose concrete field values are computed here. -/
theorem invalid_input_returns_record :
    (calculate_investment invalidP).total_mortgage_paid = 0 ∧
    (calculate_investment invalidP).total_rent_paid = 0 ∧
    (calculate_investment invalidP).final_stock_portfolio = 3000000 ∧
    (calculate_investment invalidP).buy_net_worth = 15000000 := by
  have hN : monthsCount invalidP = 0 := by
    norm_num [monthsCount, total_months, pyInt, invalidP, exP]
  refine ⟨?_, ?_, ?_, ?_⟩ <;>
    simp only [calculate_investment, finalState, hN, simulateAux, initState,
      final_house_value, house_price_initial] <;>
    norm_num [invalidP, exP, Real.rpow_zero]

/-- Claim C2: the spec says the result record contains two ordered sequences
of length total_months (buy-side and rent-side net worth per month).  The
dict returned by calculate_investment has no such keys (nor a total_months
key), so the callers that read them (app.py line 73, calculator_gui.py
line 845) would fail with a KeyError. -/
theorem monthly_sequences_missing :
    ("monthly_buy_net_worths" ∈ resultKeys) = False ∧
    ("monthly_rent_net_worths" ∈ resultKeys) = False ∧
    ("total_months" ∈ resultKeys) = False := by
  refine ⟨?_, ?_, ?_⟩ <;> · simp only [eq_iff_iff, iff_false]; decide

/-- Claim C4: the terminal buy-side net worth equals
(loan_amount + down_payment) * (1 + house_growth_annual_rate) ^ mortgage_years,
applied once over the whole horizon after the loop, and depends on no
monthly figure: any parameter set agreeing on these four fields yields the
same buy-side net worth, whatever its rent, stock and grace parameters. -/
theorem terminal_house_value (p : Params) :
    (calculate_investment p).buy_net_worth
      = (p.loan_amount + p.down_payment)
          * (1 + p.house_growth_rate) ^ p.mortgage_years ∧
    (∀ q : Params, q.loan_amount = p.loan_amount →
      q.down_payment = p.down_payment →
      q.house_growth_rate = p.house_growth_rate →
      q.mortgage_years = p.mortgage_years →
      (calculate_investment q).buy_net_worth
        = (calculate_investment p).buy_net_worth) := by
  constructor
  · rfl
  · intro q h1 h2 h3 h4
    show final_house_value q = final_house_value p
    simp [final_house_value, house_price_initial, h1, h2, h3, h4]

/-- Witness for C4 at the §8 scenario, with the independence part
instantiated at a parameter set differing in its rent and stock fields. -/
theorem terminal_house_value_witness :
    (calculate_investment exP).buy_net_worth
      = (exP.loan_amount + exP.down_payment)
          * (1 + exP.house_growth_rate) ^ exP.mortgage_years ∧
    (calculate_investment
        { exP with rent_initial := 1, stock_return_rate := 0 }).buy_net_worth
      = (calculate_investment exP).buy_net_worth :=
  ⟨(terminal_house_value exP).1,
   (terminal_house_value exP).2
     { exP with rent_initial := 1, stock_return_rate := 0 } rfl rfl rfl rfl⟩

/-- Claim C9: the engine is deterministic and pure: its output is fully
determined by the ten parameter fields, so any two parameter records that
agree field by field produce equal result records. -/
theorem engine_deterministic (p q : Params)
    (h1 : p.loan_amount = q.loan_amount)
    (h2 : p.down_payment = q.down_payment)
    (h3 : p.mortgage_rate = q.mortgage_rate)
    (h4 : p.rent_initial = q.rent_initial)
    (h5 : p.rent_growth_rate = q.rent_growth_rate)
    (h6 : p.house_growth_rate = q.house_growth_rate)
    (h7 : p.stock_return_rate = q.stock_return_rate)
    (h8 : p.grace_period_years = q.grace_period_years)
    (h9 : p.invest_difference = q.invest_difference)
    (h10 : p.mortgage_years = q.mortgage_years) :
    calculate_investment p = calculate_investment q := by
  have hpq : p = q := Params.ext h1 h2 h3 h4 h5 h6 h7 h8 h9 h10
  rw [hpq]

/-- Witness for C9: two invocations on the §8 scenario agree. -/
theorem engine_deterministic_witness :
    calculate_investment exP = calculate_investment exP :=
  engine_deterministic exP exP rfl rfl rfl rfl rfl rfl rfl rfl rfl rfl

/-- Claim C10: with invest_difference = true the cash_savings field of the
result is 0 and the rent-side net worth equals the final portfolio; with
invest_difference = false the portfolio receives no cash-flow additions
(each step only multiplies it by the growth factor) and the rent-side net
worth is the portfolio plus the cash savings. -/
theorem invest_flag_invariants (p : Params) :
    (p.invest_difference = true →
      (calculate_investment p).cash_savings = 0 ∧
      (calculate_investment p).rent_net_worth
        = (calculate_investment p).final_stock_portfolio) ∧
    (p.invest_difference = false →
      (∀ (month : ℕ) (s : SimState),
        (simStep p month s).stock_portfolio
          = s.stock_portfolio * (1 + monthly_stock_return p)) ∧
      (calculate_investment p).rent_net_worth
        = (calculate_investment p).final_stock_portfolio
            + (calculate_investment p).cash_savings) := by
  constructor
  · intro ht
    have hc : (finalState p).cash_savings = 0 :=
      cash_savings_eq_zero p ht (monthsCount p)
    constructor
    · show (finalState p).cash_savings = 0
      exact hc
    · show (finalState p).stock_portfolio + (finalState p).cash_savings
        = (finalState p).stock_portfolio
      rw [hc, add_zero]
  · intro hf
    constructor
    · intro month s
      simp [simStep, hf]
    · rfl

/-- Witness for C10 at the §8 scenario (invest_difference = true). -/
theorem invest_flag_invariants_witness :
    (calculate_investment exP).cash_savings = 0 ∧
    (calculate_investment exP).rent_net_worth
      = (calculate_investment exP).final_stock_portfolio :=
  (invest_flag_invariants exP).1 rfl

/-- Claim C3: with remaining_months > 0, the post-grace monthly payment in
the result equals the annuity formula
loan_amount * i * (1+i)^n / ((1+i)^n - 1) with i = mortgage_rate/12 and
n = remaining_months when i > 0, and loan_amount / remaining_months
when i = 0. -/
theorem post_grace_payment_formula (p : Params)
    (h : 0 < remaining_months p) :
    (0 < p.mortgage_rate / 12 →
      (calculate_investment p).post_grace_monthly_pay
        = p.loan_amount * (p.mortgage_rate / 12)
            * (1 + p.mortgage_rate / 12) ^ (remaining_months p).toNat
            / ((1 + p.mortgage_rate / 12) ^ (remaining_months p).toNat - 1)) ∧
    (p.mortgage_rate / 12 = 0 →
      (calculate_investment p).post_grace_monthly_pay
        = p.loan_amount / (remaining_months p : ℝ)) := by
  constructor
  · intro hi
    show post_grace_payment p = _
    rw [post_grace_payment, if_pos h,
      if_pos (show 0 < monthly_mortgage_rate p from hi)]
    simp only [monthly_mortgage_rate]
    ring
  · intro h0
    show post_grace_payment p = _
    rw [post_grace_payment, if_pos h,
      if_neg (show ¬ 0 < monthly_mortgage_rate p by
        simp [monthly_mortgage_rate, h0])]

/-- Witness for C3 at the §8 scenario (remaining_months = 360, i > 0). -/
theorem post_grace_payment_formula_witness :
    0 < remaining_months exP ∧
    ((0 < exP.mortgage_rate / 12 →
      (calculate_investment exP).post_grace_monthly_pay
        = exP.loan_amount * (exP.mortgage_rate / 12)
            * (1 + exP.mortgage_rate / 12) ^ (remaining_months exP).toNat
            / ((1 + exP.mortgage_rate / 12) ^ (remaining_months exP).toNat
                - 1)) ∧
     (exP.mortgage_rate / 12 = 0 →
      (calculate_investment exP).post_grace_monthly_pay
        = exP.loan_amount / (remaining_months exP : ℝ))) :=
  ⟨by norm_num [remaining_months, total_months, grace_months, pyInt, exP],
   post_grace_payment_formula exP
     (by norm_num [remaining_months, total_months, grace_months, pyInt, exP])⟩

/-- Claim C5: each month the portfolio is first multiplied by
(1 + monthly_stock_return) and only then receives the cash-flow delta
(routed to it only when invest_difference is set); consequently with
invest_difference = false the terminal portfolio is the down payment
compounded at the annual stock return over mortgage_years, provided the
annual rate exceeds -1 and the month count is mortgage_years * 12. -/
theorem portfolio_compounding (p : Params)
    (hr : -1 < p.stock_return_rate)
    (hm : (monthsCount p : ℝ) = p.mortgage_years * 12) :
    (∀ (month : ℕ) (s : SimState),
      (simStep p month s).stock_portfolio
        = s.stock_portfolio * (1 + monthly_stock_return p)
            + (if p.invest_difference = true then
                mortgagePay p month - nextRent p month s.current_rent
              else 0)) ∧
    (p.invest_difference = false →
      (calculate_investment p).final_stock_portfolio
        = p.down_payment
            * (1 + p.stock_return_rate) ^ p.mortgage_years) := by
  constructor
  · intro month s
    by_cases hinv : p.invest_difference
    · simp [simStep, hinv]
    · simp [simStep, hinv]
  · intro hf
    have h1 : (calculate_investment p).final_stock_portfolio
        = p.down_payment * (1 + monthly_stock_return p) ^ monthsCount p :=
      portfolio_closed_form p hf (monthsCount p)
    have hx : (0 : ℝ) ≤ 1 + p.stock_return_rate := by linarith
    have h2 : 1 + monthly_stock_return p
        = (1 + p.stock_return_rate) ^ ((1 : ℝ) / 12) := by
      rw [monthly_stock_return]; ring
    rw [h1, h2,
      ← Real.rpow_natCast
        ((1 + p.stock_return_rate) ^ ((1 : ℝ) / 12)) (monthsCount p),
      ← Real.rpow_mul hx]
    have h3 : (1 : ℝ) / 12 * (monthsCount p : ℝ) = p.mortgage_years := by
      rw [hm]; ring
    rw [h3]

/-- Witness for C5 with invest_difference switched off in the §8 scenario. -/
theorem portfolio_compounding_witness :
    (-1 < exPf.stock_return_rate) ∧
    ((monthsCount exPf : ℝ) = exPf.mortgage_years * 12) ∧
    (exPf.invest_difference = false →
      (calculate_investment exPf).final_stock_portfolio
        = exPf.down_payment
            * (1 + exPf.stock_return_rate) ^ exPf.mortgage_years) :=
  ⟨by norm_num [exPf, exP],
   by (norm_num [monthsCount, total_months, pyInt, exPf, exP]; simp),
   (portfolio_compounding exPf (by norm_num [exPf, exP])
      (by (norm_num [monthsCount, total_months, pyInt, exPf, exP]; simp))).2⟩

/-- Claim C6: rent starts at rent_initial, is unchanged from one month to
the next inside a 12-month block, is multiplied by exactly
(1 + rent_growth_rate) at each block boundary (months 13, 25, ...), and
total_rent_paid is the sum of the monthly rents over months
1..total_months. -/
theorem rent_step_law (p : Params) :
    rentCharged p 1 = p.rent_initial ∧
    (∀ m : ℕ, 1 ≤ m → ¬ m % 12 = 0 →
      rentCharged p (m + 1) = rentCharged p m) ∧
    (∀ k : ℕ, 1 ≤ k →
      rentCharged p (12 * k + 1)
        = (1 + p.rent_growth_rate) * rentCharged p (12 * k)) ∧
    (calculate_investment p).total_rent_paid
      = ∑ k ∈ Finset.range (monthsCount p), rentCharged p (k + 1) := by
  refine ⟨?_, ?_, ?_, ?_⟩
  · rw [rentCharged, current_rent_closed_form p 1]
    norm_num
  · intro m h1 h2
    rw [rentCharged, rentCharged, current_rent_closed_form p (m + 1),
      current_rent_closed_form p m]
    have hq : (m + 1 - 1) / 12 = (m - 1) / 12 := by omega
    rw [hq]
  · intro k hk
    obtain ⟨j, rfl⟩ : ∃ j, k = j + 1 := ⟨k - 1, by omega⟩
    rw [rentCharged, rentCharged, current_rent_closed_form,
      current_rent_closed_form]
    have e1 : (12 * (j + 1) + 1 - 1) / 12 = j + 1 := by omega
    have e2 : (12 * (j + 1) - 1) / 12 = j := by omega
    rw [e1, e2, pow_succ]
    ring
  · show (finalState p).total_rent_paid = _
    rw [finalState]
    exact total_rent_paid_sum p (monthsCount p)

/-- Witness for C6 at the §8 scenario: first rent and the first block
boundary (month 13 versus month 12). -/
theorem rent_step_law_witness :
    rentCharged exP 1 = exP.rent_initial ∧
    rentCharged exP (12 * 1 + 1)
      = (1 + exP.rent_growth_rate) * rentCharged exP (12 * 1) :=
  ⟨(rent_step_law exP).1, (rent_step_law exP).2.2.1 1 (by norm_num)⟩

/-- Claim C7: in every month of the grace period the mortgage payment
charged equals loan_amount * (mortgage_rate / 12), independent of the
month; the amount added to total_mortgage_paid that month is that same
constant. -/
theorem grace_period_invariance (p : Params) (k : ℕ)
    (hk : (k : ℤ) + 1 ≤ grace_months p) :
    mortgagePay p (k + 1) = p.loan_amount * (p.mortgage_rate / 12) ∧
    (simulateAux p (k + 1)).total_mortgage_paid
      = (simulateAux p k).total_mortgage_paid
          + p.loan_amount * (p.mortgage_rate / 12) := by
  have hcond : ((k + 1 : ℕ) : ℤ) ≤ grace_months p := by push_cast; omega
  have h1 : mortgagePay p (k + 1) = p.loan_amount * (p.mortgage_rate / 12) := by
    rw [mortgagePay, if_pos hcond, monthly_mortgage_rate]
  refine ⟨h1, ?_⟩
  simp only [simulateAux, simStep]
  rw [h1]

/-- Witness for C7: month 1 of a 3-year grace period in the §8 scenario. -/
theorem grace_period_invariance_witness :
    ((0 : ℕ) : ℤ) + 1 ≤ grace_months exPg ∧
    (mortgagePay exPg (0 + 1) = exPg.loan_amount * (exPg.mortgage_rate / 12) ∧
     (simulateAux exPg (0 + 1)).total_mortgage_paid
       = (simulateAux exPg 0).total_mortgage_paid
           + exPg.loan_amount * (exPg.mortgage_rate / 12)) :=
  ⟨by norm_num [grace_months, pyInt, exPg, exP],
   grace_period_invariance exPg 0
     (by norm_num [grace_months, pyInt, exPg, exP])⟩

/-- Claim C8: when the grace period consumes the whole term
(remaining_months ≤ 0) the engine does not fail: it returns a result whose
post-grace monthly payment is 0, and every month of the horizon is charged
the interest-only amount. -/
theorem degenerate_amortization (p : Params)
    (h : remaining_months p ≤ 0) :
    (calculate_investment p).post_grace_monthly_pay = 0 ∧
    ∀ m : ℕ, (m : ℤ) ≤ total_months p →
      mortgagePay p m = p.loan_amount * (p.mortgage_rate / 12) := by
  have h2 : total_months p ≤ grace_months p := by
    have h3 := h
    simp only [remaining_months] at h3
    omega
  constructor
  · show post_grace_payment p = 0
    rw [post_grace_payment, if_neg (by omega)]
  · intro m hm
    rw [mortgagePay, if_pos (by omega), monthly_mortgage_rate]

/-- Witness for C8: a 30-year grace period on the 30-year §8 scenario. -/
theorem degenerate_amortization_witness :
    remaining_months exPd ≤ 0 ∧
    ((calculate_investment exPd).post_grace_monthly_pay = 0 ∧
     ∀ m : ℕ, (m : ℤ) ≤ total_months exPd →
       mortgagePay exPd m = exPd.loan_amount * (exPd.mortgage_rate / 12)) :=
  ⟨by norm_num [remaining_months, total_months, grace_months, pyInt, exPd, exP],
   degenerate_amortization exPd
     (by norm_num [remaining_months, total_months, grace_months, pyInt,
       exPd, exP])⟩

end
